import Mathlib

/-!
# Verification of the os2grzmeta relational-to-domain mapping and profile merge

A shallow embedding of the Go sources of `os2grzmeta`: the SQL code-translation
CASE expressions and CONCAT/LOWER column expressions of `fetchMetadata`, the
row-fold building the `Metadata` document, the consent resolver
`fetchMvConsent` (whose SQL orders the consent history by date descending and
limits to one row), the profile catalog lookup `FindProfile`, the profile
overlay performed in `main`, and the case-number selection prologue of the
`fetchMetadata` variant in `main.go`.

Database interaction is modelled by passing the relevant table contents (or a
database error) explicitly: a query outcome is an `Except DbError` value
holding the raw rows the SQL statement would consume.  `sql.NullString` is
modelled as `Option String` (`none` = SQL NULL); Go's `NullString.String`
field, which is `""` for NULL, is `nullStr`.  Go code that would panic
(index out of range, nil-pointer dereference) is modelled as `Option`
returning `none`.
-/

/-- A database error as surfaced by the Go `database/sql` driver. -/
abbrev DbError := String

/-- Go `sql.NullString`: the `.String` field of a scanned nullable column,
which is the empty string when the column was NULL. -/
def nullStr (s : Option String) : String := s.getD ""

/-! ## SQL column expressions of the `fetchMetadata` query

Each `CASE` expression of the SELECT list is translated to a function on the
raw column value (`Option` for nullable columns; an SQL comparison with NULL
is not true, so a NULL input falls through to the ELSE branch). -/

/-- SQL: `CASE WHEN kostentraegertyp = 'GKV' THEN 'GKV' WHEN kostentraegertyp
= 'PKV' THEN 'PKV' ELSE 'UNK' END`. -/
def coverageCase (s : Option String) : String :=
  if s = some "GKV" then "GKV"
  else if s = some "PKV" then "PKV"
  else "UNK"

/-- SQL: `CASE WHEN patient.geschlecht = 'm' THEN 'male' WHEN ... = 'w' THEN
'female' WHEN ... = 'u' THEN 'unknown' ELSE 'other' END`. -/
def genderCase (s : Option String) : String :=
  if s = some "m" then "male"
  else if s = some "w" then "female"
  else if s = some "u" then "unknown"
  else "other"

/-- SQL: `CASE WHEN dk_molekulargenetik.materialfixierung = 2 THEN
'cryo-frozen' WHEN ... = 3 THEN 'ffpe' WHEN ... = 9 THEN 'unknown' ELSE
'other' END`. -/
def fixationCase (n : Option Int) : String :=
  if n = some 2 then "cryo-frozen"
  else if n = some 3 then "ffpe"
  else if n = some 9 then "unknown"
  else "other"

/-- SQL: `CASE WHEN dk_molekulargenetik.artdersequenzierung = 'WES' THEN
'wes' WHEN ... = 'WGS' THEN 'wgs' WHEN ... = 'PanelKit' THEN 'panel' WHEN ...
= 'X' THEN 'unknown' ELSE 'other' END`. -/
def seqTechCase (s : Option String) : String :=
  if s = some "WES" then "wes"
  else if s = some "WGS" then "wgs"
  else if s = some "PanelKit" then "panel"
  else if s = some "X" then "unknown"
  else "other"

/-- SQL: `CASE WHEN dk_molekulargenetik.referenzgenom = 'HG19' THEN 'GRCh37'
WHEN ... = 'HG38' THEN 'GRCh38' END` — no ELSE branch, so any other input
(including NULL) yields SQL NULL. -/
def refGenomeCase (s : Option String) : Option String :=
  if s = some "HG19" then some "GRCh37"
  else if s = some "HG38" then some "GRCh38"
  else none

/-- SQL `CONCAT(a, ' ', b)`: NULL if either operand is NULL. -/
def concatSql (a b : Option String) : Option String :=
  match a, b with
  | some x, some y => some (x ++ " " ++ y)
  | _, _ => none

/-- SQL `LOWER(s)`: NULL propagates. ASCII lowercasing, as the catalog
short-descriptions are ASCII. -/
def lowerSql (s : Option String) : Option String := s.map (·.toLower)

/-! ## Go `strconv.ParseFloat`, restricted to plain decimal literals

`fetchMetadata` runs `strconv.ParseFloat(tumorzellgehalt, 64)` and discards
the error, so a failed parse contributes the value `0`.  The database renders
the numeric `tumorzellgehalt` column as a plain (optionally signed) decimal
string, so the model covers exactly those forms, over `ℚ` instead of binary
floating point (the inputs at stake, such as `45.5`, are exactly
representable either way).  A malformed string parses to `none`. -/

/-- Parse a nonempty digit string to a natural number; any non-digit fails.
The empty list yields 0 (callers guard emptiness as Go does). -/
def digitsVal (cs : List Char) : Option Nat :=
  cs.foldlM (fun acc c => if c.isDigit then some (acc * 10 + (c.toNat - 48)) else none) 0

/-- Split a character list at the first dot, if any. -/
def splitDot : List Char → List Char × Option (List Char)
  | [] => ([], none)
  | c :: cs =>
    if c = '.' then ([], some cs)
    else
      let r := splitDot cs
      (c :: r.1, r.2)

/-- Unsigned decimal body: digits, optionally with one dot (Go accepts
`45.`, `.5`; rejects `.` and the empty string). -/
def parseDecimalCore (cs : List Char) : Option ℚ :=
  match splitDot cs with
  | (i, none) =>
    if i.isEmpty then none
    else (digitsVal i).map (fun n => (n : ℚ))
  | (i, some f) =>
    if i.isEmpty ∧ f.isEmpty then none
    else
      match digitsVal i, digitsVal f with
      | some ni, some nf => some ((ni : ℚ) + (nf : ℚ) / (10 : ℚ) ^ f.length)
      | _, _ => none

/-- `strconv.ParseFloat` on plain decimal input, with optional sign. -/
def parseDecimal (s : String) : Option ℚ :=
  match s.toList with
  | [] => none
  | '-' :: rest => (parseDecimalCore rest).map Neg.neg
  | '+' :: rest => parseDecimalCore rest
  | cs => parseDecimalCore cs

/-- `tumorCellCount, _ := strconv.ParseFloat(donorsLabdataTumorcellcount.String, 64)`:
best-effort parse of the scanned nullable column, zero on failure or NULL. -/
def tumorCellCountOf (s : Option String) : ℚ :=
  (parseDecimal (nullStr s)).getD 0

/-! ## The domain model (`metadata` package of mv64e-grz-dto-go, fields as
used by this repository).  Enum-typed fields are Go string types; the fixed
constants appear as their string labels (`initial`, `oncological`, `index`,
`pathology`, and the three consent-scope domains). -/

structure TumorCellCount where
  count : ℚ
  method : String
deriving DecidableEq

structure CallerUsed where
  name : String
  version : String
deriving DecidableEq

structure SequenceData where
  referenceGenome : String
  bioinformaticsPipelineName : String
  bioinformaticsPipelineVersion : String
  callerUsed : List CallerUsed
  files : List String
deriving DecidableEq

structure LabDatum where
  barcode : String
  labDataName : String
  tissueTypeName : String
  sampleDate : String
  sampleConservation : String
  sequenceType : String
  sequenceSubtype : String
  fragmentationMethod : String
  libraryType : String
  libraryPrepKit : String
  libraryPrepKitManufacturer : String
  sequencerModel : String
  sequencerManufacturer : String
  kitName : String
  kitManufacturer : String
  enrichmentKitManufacturer : String
  enrichmentKitDescription : String
  sequencingLayout : String
  tumorCellCount : List TumorCellCount
  sequenceData : Option SequenceData
deriving DecidableEq

structure Scope where
  type : String
  date : String
  domain : String
deriving DecidableEq

structure MvConsent where
  presentationDate : Option String
  version : String
  scope : List Scope
deriving DecidableEq

structure Donor where
  donorPseudonym : String
  gender : String
  relation : String
  mvConsent : Option MvConsent
  labData : List LabDatum
deriving DecidableEq

structure Submission where
  submissionType : String
  localCaseId : String
  coverageType : String
  diseaseType : String
  genomicDataCenterId : String
  clinicalDataNodeId : String
  genomicStudyType : String
  genomicStudySubtype : String
  labName : String
deriving DecidableEq

structure Metadata where
  submission : Submission
  donors : List Donor
deriving DecidableEq

/-- Go `metadata.Metadata{}`: zero value, all strings empty, no donors. -/
def emptyMetadata : Metadata :=
  { submission :=
      { submissionType := "", localCaseId := "", coverageType := "",
        diseaseType := "", genomicDataCenterId := "", clinicalDataNodeId := "",
        genomicStudyType := "", genomicStudySubtype := "", labName := "" },
    donors := [] }

/-! ## Consent resolver `fetchMvConsent`

The SQL statement selects the consent-history rows of the case, `ORDER BY
dk_dnpm_uf_consentmvverlauf.date DESC LIMIT 1`.  The table contents for the
case are passed in as a list of raw rows; the ORDER BY/LIMIT is modelled by
insertion-sorting under the reversed date order and taking one row.  Dates
are the scanned strings (ISO dates compare chronologically; a NULL date scans
to `""`, which sorts last in descending order exactly as MySQL sorts NULLs).

The Go function returns `(nil, nil)` both when the query errors and when no
row exists: its error result is always `nil`. -/

structure ConsentRow where
  date : String
  version : String
  sequencing : String
  caseidentification : String
  reidentification : String
deriving DecidableEq

/-- Reversed date order used for `ORDER BY date DESC`. -/
def consentGE (a b : ConsentRow) : Prop := b.date ≤ a.date

instance : DecidableRel consentGE := fun a b =>
  inferInstanceAs (Decidable (b.date ≤ a.date))

instance : IsTotal ConsentRow consentGE := ⟨fun a b => le_total b.date a.date⟩

instance : IsTrans ConsentRow consentGE := ⟨fun _ _ _ h1 h2 => le_trans h2 h1⟩

/-- The row-to-`MvConsent` mapping of the scan loop body: three scopes
(sequencing-use, re-identification, case-identification), each stamped with
the row's date. -/
def mkMvConsent (r : ConsentRow) : MvConsent :=
  { presentationDate := some r.date,
    version := r.version,
    scope :=
      [ { type := r.sequencing, date := r.date, domain := "mvSequencing" },
        { type := r.reidentification, date := r.date, domain := "reIdentification" },
        { type := r.caseidentification, date := r.date, domain := "caseIdentification" } ] }

/-- Go `fetchMvConsent`: on a query error the `if err == nil` guard is not
taken and the function falls through to `return nil, nil`; otherwise the
first row of the ordered, limited result is mapped and returned, and an
empty result again falls through to `return nil, nil`. -/
def fetchMvConsent (q : Except DbError (List ConsentRow)) :
    Option MvConsent × Option DbError :=
  match q with
  | .error _ => (none, none)
  | .ok rows =>
    match (List.insertionSort consentGE rows).take 1 with
    | [] => (none, none)
    | r :: _ => (some (mkMvConsent r), none)

/-! ## The main fetch `fetchMetadata`

Raw columns feeding the SELECT expressions; nullable columns are `Option`.
`materialfixierung` is numeric in the schema (compared against 2/3/9). -/

structure RawRow where
  organisationunitIdentifier : Option String
  kostentraegertyp : Option String
  patientenId : Option String
  geschlecht : Option String
  probenmaterialShortdesc : Option String
  nukleinsaeureShortdesc : Option String
  entnahmedatum : Option String
  materialfixierung : Option Int
  artdersequenzierung : Option String
  tumorzellgehalt : Option String
  referenzgenom : Option String
  panel : Option String
deriving DecidableEq

/-- One `metadata.LabDatum` literal of the scan loop body: fixed barcode
`"NA"`, scanned and translated columns, a single tumor-cell-count entry with
the fixed method `"pathology"`, and a fresh `SequenceData` with an empty file
list. -/
def mkLabDatum (r : RawRow) : LabDatum :=
  { barcode := "NA",
    labDataName := nullStr (concatSql r.probenmaterialShortdesc r.nukleinsaeureShortdesc),
    tissueTypeName := "",
    sampleDate := nullStr r.entnahmedatum,
    sampleConservation := fixationCase r.materialfixierung,
    sequenceType := nullStr (lowerSql r.nukleinsaeureShortdesc),
    sequenceSubtype := "",
    fragmentationMethod := "",
    libraryType := seqTechCase r.artdersequenzierung,
    libraryPrepKit := "",
    libraryPrepKitManufacturer := "",
    sequencerModel := "",
    sequencerManufacturer := "",
    kitName := "",
    kitManufacturer := "",
    enrichmentKitManufacturer := "",
    enrichmentKitDescription := "",
    sequencingLayout := "",
    tumorCellCount := [ { count := tumorCellCountOf r.tumorzellgehalt, method := "pathology" } ],
    sequenceData := some
      { referenceGenome := nullStr (refGenomeCase r.referenzgenom),
        bioinformaticsPipelineName := "",
        bioinformaticsPipelineVersion := "",
        callerUsed := [],
        files := [] } }

/-- The `result.Submission` literal built on the first row: fixed submission
type `"initial"` and disease type `"oncological"`, translated coverage type,
everything else the zero value (the scanned `submission_labname` is unused). -/
def initSubmission (r : RawRow) : Submission :=
  { submissionType := "initial",
    localCaseId := "",
    coverageType := coverageCase r.kostentraegertyp,
    diseaseType := "oncological",
    genomicDataCenterId := "",
    clinicalDataNodeId := "",
    genomicStudyType := "",
    genomicStudySubtype := "",
    labName := "" }

/-- The single `metadata.Donor` built on the first row; `MvConsent` is set
only when `fetchMvConsent` returned `err == nil && consentMv != nil`. -/
def initDonor (q : Except DbError (List ConsentRow)) (r : RawRow) : Donor :=
  { donorPseudonym := nullStr r.patientenId,
    gender := genderCase r.geschlecht,
    relation := "index",
    mvConsent :=
      match fetchMvConsent q with
      | (some mv, none) => some mv
      | _ => none,
    labData := [] }

/-- `result.Donors[0].LabData = append(result.Donors[0].LabData, labData)`.
After initialization the donor list is never empty; the empty case cannot be
reached inside the fold. -/
def appendLab (ds : List Donor) (ld : LabDatum) : List Donor :=
  match ds with
  | [] => []
  | d :: rest => { d with labData := d.labData ++ [ld] } :: rest

/-- One iteration of the scan loop: initialize submission and donor shell if
no donor exists yet, then append the row's `LabDatum` to the first donor. -/
def processRow (q : Except DbError (List ConsentRow)) (acc : Metadata) (r : RawRow) :
    Metadata :=
  let acc1 :=
    if acc.donors.isEmpty then
      { submission := initSubmission r, donors := [initDonor q r] }
    else acc
  { acc1 with donors := appendLab acc1.donors (mkLabDatum r) }

/-- The scan loop of `fetchMetadata` over the returned rows, starting from
the zero-valued `metadata.Metadata{}`. -/
def fetchFold (q : Except DbError (List ConsentRow)) (rows : List RawRow) : Metadata :=
  rows.foldl (processRow q) emptyMetadata

/-- Go `fetchMetadata`: a query (or scan) error is returned as `(nil, err)`
and is fatal in `main`; otherwise the folded document is returned with a nil
error — in particular an empty row set yields the initialized-but-empty
document, not an error. -/
def fetchMetadata (rowsQ : Except DbError (List RawRow))
    (consentQ : Except DbError (List ConsentRow)) : Except DbError Metadata :=
  match rowsQ with
  | .error e => .error e
  | .ok rows => .ok (fetchFold consentQ rows)

/-! ## Profile catalog (`Klinik`, `Profile`, `FindProfile`) -/

structure Profile where
  name : String
  genomicDataCenterId : String
  clinicalDataNodeId : String
  genomicStudyType : String
  genomicStudySubtype : String
  labName : String
  labDataName : String
  tissueTypeName : String
  sequenceType : String
  sequenceSubType : String
  fragmentationMethod : String
  libraryType : String
  libraryPrepKit : String
  libraryPrepKitManufacturer : String
  sequencerModel : String
  sequencerManufacturer : String
  kitName : String
  kitManufacturer : String
  enrichmentKitManufacturer : String
  enrichmentKitDescription : String
  sequencingLayout : String
  tumorCellCountMethod : String
  bioinformaticsPipelineName : String
  bioinformaticsPipelineVersion : String
  callerUsedName : String
  callerUsedVersion : String
deriving DecidableEq

structure Klinik where
  ik : String
  name : String
  grz : List String
  kdk : List String
  profiles : List Profile
deriving DecidableEq

/-- Go `FindProfile`: scan the catalog; inside each Klinik whose `Ik`
matches, return the first profile whose name matches; otherwise continue
with the next Klinik. -/
def findProfile (catalog : List Klinik) (ik profileName : String) : Option Profile :=
  catalog.findSome? fun k =>
    if k.ik = ik then k.profiles.find? (fun p => p.name == profileName) else none

/-! ## Profile overlay and assembly in `main`

After the fetch, `main` unconditionally sets the local case identifier and
the selected GRZ/KDK identifiers, then — if `FindProfile` returned a profile
— overwrites the documented submission fields and first-LabDatum fields.
The Go overlay indexes `data.Donors[0]`, `...LabData[0]`,
`...TumorCellCount[0]` and dereferences the `SequenceData` pointer; on an
empty donor/lab-data/count list or a nil pointer it panics, modelled here as
`none`. -/

def applyProfile (data : Metadata) (p : Profile) : Option Metadata :=
  match data.donors with
  | [] => none
  | d0 :: drest =>
    match d0.labData with
    | [] => none
    | l0 :: lrest =>
      match l0.tumorCellCount, l0.sequenceData with
      | t0 :: trest, some sd =>
        some
          { data with
            submission :=
              { data.submission with
                genomicStudyType := p.genomicStudyType,
                genomicStudySubtype := p.genomicStudySubtype,
                labName := p.labName },
            donors :=
              { d0 with
                labData :=
                  { l0 with
                    labDataName := p.labDataName,
                    tissueTypeName := p.tissueTypeName,
                    sequenceType := p.sequenceType,
                    sequenceSubtype := p.sequenceSubType,
                    fragmentationMethod := p.fragmentationMethod,
                    libraryType := p.libraryType,
                    libraryPrepKit := p.libraryPrepKit,
                    libraryPrepKitManufacturer := p.libraryPrepKitManufacturer,
                    sequencerModel := p.sequencerModel,
                    sequencerManufacturer := p.sequencerManufacturer,
                    kitName := p.kitName,
                    kitManufacturer := p.kitManufacturer,
                    enrichmentKitManufacturer := p.enrichmentKitManufacturer,
                    enrichmentKitDescription := p.enrichmentKitDescription,
                    sequencingLayout := p.sequencingLayout,
                    tumorCellCount := { t0 with method := p.tumorCellCountMethod } :: trest,
                    sequenceData := some
                      { sd with
                        bioinformaticsPipelineName := p.bioinformaticsPipelineName,
                        bioinformaticsPipelineVersion := p.bioinformaticsPipelineVersion,
                        callerUsed := sd.callerUsed ++
                          [ { name := p.callerUsedName, version := p.callerUsedVersion } ] } }
                  :: lrest }
              :: drest }
      | _, _ => none

/-- The post-fetch assembly of `main`: set the three operator-selected
identifiers, then apply the profile found by `FindProfile` (if any). -/
def assemble (data : Metadata) (fall kdk grz : String) (catalog : List Klinik)
    (ik profileName : String) : Option Metadata :=
  let d :=
    { data with
      submission :=
        { data.submission with
          localCaseId := fall,
          clinicalDataNodeId := kdk,
          genomicDataCenterId := grz } }
  match findProfile catalog ik profileName with
  | none => some d
  | some p => applyProfile d p

/-! ## Case-number selection prologue of `fetchMetadata` in `main.go`

`fallnummer` starts as `""`.  When the candidate lookup succeeded and
returned more than one entry, a selection prompt is constructed — but the
code only builds the select (with its `Value(&fallnummer)` binding) and
discards it without ever running it, so the binding never fires and
`fallnummer` keeps its initial empty value on every path: the single
candidate of a one-entry result is not adopted, and neither is any operator
choice for a longer result. -/

def selectFallnummer (fallnummernQ : Except DbError (List String)) : String :=
  match fallnummernQ with
  | .error _ => ""
  | .ok fallnummern =>
    -- the prompt built in the then-branch is constructed but never run, so
    -- nothing ever writes through the binding and the value stays empty
    if fallnummern.length > 1 then "" else ""

/-- Whether the disambiguation select prompt is constructed: only when the
candidate lookup succeeded with more than one entry (its result is then
discarded, see above). -/
def fallnummerPromptBuilt (fallnummernQ : Except DbError (List String)) : Bool :=
  match fallnummernQ with
  | .error _ => false
  | .ok fallnummern => decide (fallnummern.length > 1)

/-! ## Concrete sample data used by witnesses and counterexamples -/

/-- A raw database row: GKV payer, female patient, FFPE fixation, WGS
technique, HG38 reference genome, tumor cell content `45.5`. -/
def sampleRaw : RawRow :=
  { organisationunitIdentifier := some "UKW",
    kostentraegertyp := some "GKV",
    patientenId := some "P123",
    geschlecht := some "w",
    probenmaterialShortdesc := some "Tumorgewebe",
    nukleinsaeureShortdesc := some "DNA",
    entnahmedatum := some "2024-03-01",
    materialfixierung := some 3,
    artdersequenzierung := some "WGS",
    tumorzellgehalt := some "45.5",
    referenzgenom := some "HG38",
    panel := some "TSO500" }

/-- The document fetched from the single row `sampleRaw` with an empty
consent history. -/
def sampleMeta : Metadata := fetchFold (.ok []) [sampleRaw]

/-- The first donor of `sampleMeta`. -/
def sampleDonor : Donor :=
  { initDonor (.ok []) sampleRaw with labData := [mkLabDatum sampleRaw] }

/-- The single tumor-cell-count entry of the `sampleRaw` LabDatum (its count
is the parsed `45.5`). -/
def sampleT0 : TumorCellCount :=
  { count := tumorCellCountOf (some "45.5"), method := "pathology" }

/-- The `SequenceData` block of the `sampleRaw` LabDatum. -/
def sampleSd : SequenceData :=
  { referenceGenome := "GRCh38",
    bioinformaticsPipelineName := "",
    bioinformaticsPipelineVersion := "",
    callerUsed := [],
    files := [] }

/-- A profile with the shape of the embedded UK Würzburg defaults. -/
def ukwProfile : Profile :=
  { name := "UKW Standard",
    genomicDataCenterId := "GRZTUE002",
    clinicalDataNodeId := "KDKTUE005",
    genomicStudyType := "single",
    genomicStudySubtype := "tumor-only",
    labName := "UKW CCC MF",
    labDataName := "Tumor DNA",
    tissueTypeName := "Tumor tissue",
    sequenceType := "dna",
    sequenceSubType := "somatic",
    fragmentationMethod := "sonication",
    libraryType := "wes",
    libraryPrepKit := "KAPA HyperPrep",
    libraryPrepKitManufacturer := "Roche",
    sequencerModel := "NovaSeq 6000",
    sequencerManufacturer := "Illumina",
    kitName := "KAPA HyperPrep",
    kitManufacturer := "Roche",
    enrichmentKitManufacturer := "Twist",
    enrichmentKitDescription := "Twist Exome 2.0",
    sequencingLayout := "paired-end",
    tumorCellCountMethod := "bioinformatics",
    bioinformaticsPipelineName := "miracum",
    bioinformaticsPipelineVersion := "1.0",
    callerUsedName := "Mutect2",
    callerUsedVersion := "4.5" }

/-- A one-Klinik catalog holding `ukwProfile` under IK `"260950567"`. -/
def sampleCatalog : List Klinik :=
  [ { ik := "260950567",
      name := "UK Würzburg",
      grz := ["GRZTUE002"],
      kdk := ["KDKTUE005"],
      profiles := [ukwProfile] } ]

/-- An older consent-history row. -/
def crowOld : ConsentRow :=
  { date := "2024-01-01", version := "1", sequencing := "permit",
    caseidentification := "permit", reidentification := "deny" }

/-- The most recent consent-history row. -/
def crowNew : ConsentRow :=
  { date := "2025-06-30", version := "2", sequencing := "permit",
    caseidentification := "permit", reidentification := "permit" }

/-! ## Helper lemmas about the scan-loop fold -/

/-- Any donor property established by the first-row shell initializer and
preserved by appending a fetched `LabDatum` holds for every donor produced by
one scan-loop iteration. -/
theorem processRow_donors_pres (q : Except DbError (List ConsentRow))
    (P : Donor → Prop) (hinit : ∀ r, P (initDonor q r))
    (hupd : ∀ d r, P d → P { d with labData := d.labData ++ [mkLabDatum r] })
    (acc : Metadata) (r : RawRow) (hacc : ∀ d ∈ acc.donors, P d) :
    ∀ d ∈ (processRow q acc r).donors, P d := by
  intro d hd
  simp only [processRow] at hd
  by_cases he : acc.donors.isEmpty
  · simp only [he, if_true, appendLab] at hd
    rcases List.mem_singleton.mp hd with h
    exact h ▸ hupd _ _ (hinit r)
  · simp only [Bool.not_eq_true] at he
    simp only [he, Bool.false_eq_true, if_false] at hd
    obtain ⟨d0, rest, hcons⟩ :=
      List.exists_cons_of_ne_nil (List.isEmpty_eq_false.mp he)
    rw [hcons] at hd
    simp only [appendLab] at hd
    rcases List.mem_cons.mp hd with h | h
    · exact h ▸ hupd d0 r (hacc d0 (hcons ▸ List.mem_cons_self d0 rest))
    · exact hacc d (hcons ▸ List.mem_cons_of_mem d0 h)

/-- Fold version of `processRow_donors_pres` over all fetched rows. -/
theorem fold_donors_pres (q : Except DbError (List ConsentRow))
    (P : Donor → Prop) (hinit : ∀ r, P (initDonor q r))
    (hupd : ∀ d r, P d → P { d with labData := d.labData ++ [mkLabDatum r] }) :
    ∀ (rows : List RawRow) (acc : Metadata), (∀ d ∈ acc.donors, P d) →
      ∀ d ∈ (rows.foldl (processRow q) acc).donors, P d := by
  intro rows
  induction rows with
  | nil => exact fun acc hacc => hacc
  | cons r rs ih =>
    exact fun acc hacc => ih _ (processRow_donors_pres q P hinit hupd acc r hacc)

/-! ## Claim theorems -/

/-- C4: the code-to-enum translations are total functions matching the
table: payer type GKV→"GKV", PKV→"PKV", anything else →"UNK"; sex m→male,
w→female, u→unknown, else "other"; fixation 2→cryo-frozen, 3→ffpe,
9→unknown, else "other"; sequencing technique WES→wes, WGS→wgs,
PanelKit→panel, X→unknown, else "other".  Each function is a total Lean
function on arbitrary column values (NULL included), so no input code can
abort the translation. -/
theorem C4_code_translations (s : Option String) (n : Option Int) :
    coverageCase (some "GKV") = "GKV" ∧ coverageCase (some "PKV") = "PKV" ∧
    (s ≠ some "GKV" → s ≠ some "PKV" → coverageCase s = "UNK") ∧
    genderCase (some "m") = "male" ∧ genderCase (some "w") = "female" ∧
    genderCase (some "u") = "unknown" ∧
    (s ≠ some "m" → s ≠ some "w" → s ≠ some "u" → genderCase s = "other") ∧
    fixationCase (some 2) = "cryo-frozen" ∧ fixationCase (some 3) = "ffpe" ∧
    fixationCase (some 9) = "unknown" ∧
    (n ≠ some 2 → n ≠ some 3 → n ≠ some 9 → fixationCase n = "other") ∧
    seqTechCase (some "WES") = "wes" ∧ seqTechCase (some "WGS") = "wgs" ∧
    seqTechCase (some "PanelKit") = "panel" ∧ seqTechCase (some "X") = "unknown" ∧
    (s ≠ some "WES" → s ≠ some "WGS" → s ≠ some "PanelKit" → s ≠ some "X" →
      seqTechCase s = "other") := by
  refine ⟨rfl, rfl, fun h1 h2 => ?_, rfl, rfl, rfl, fun h1 h2 h3 => ?_,
    rfl, rfl, rfl, fun h1 h2 h3 => ?_, rfl, rfl, rfl, rfl, fun h1 h2 h3 h4 => ?_⟩ <;>
    simp_all [coverageCase, genderCase, fixationCase, seqTechCase]

/-- Witness for C4 at concrete unrecognized codes. -/
theorem C4_witness :
    coverageCase (some "BG") = "UNK" ∧ genderCase (some "d") = "other" ∧
    fixationCase (some 7) = "other" ∧ seqTechCase (some "Sanger") = "other" := by
  obtain ⟨-, -, hc, -, -, -, -, -, -, -, hf, -, -, -, -, -⟩ :=
    C4_code_translations (some "BG") (some 7)
  obtain ⟨-, -, -, -, -, -, hg, -, -, -, -, -, -, -, -, -⟩ :=
    C4_code_translations (some "d") (some 7)
  obtain ⟨-, -, -, -, -, -, -, -, -, -, -, -, -, -, -, ht⟩ :=
    C4_code_translations (some "Sanger") (some 7)
  exact ⟨hc (by decide) (by decide), hg (by decide) (by decide) (by decide),
    hf (by decide) (by decide) (by decide),
    ht (by decide) (by decide) (by decide) (by decide)⟩

/-- C8: the reference-genome translation maps HG19 to GRCh37 and HG38 to
GRCh38, and any other code — NULL included — yields SQL NULL, which the scan
turns into the unset (empty) reference-genome value: there is no "other"
fallback. -/
theorem C8_reference_genome (r : Option String) :
    refGenomeCase (some "HG19") = some "GRCh37" ∧
    refGenomeCase (some "HG38") = some "GRCh38" ∧
    (r ≠ some "HG19" → r ≠ some "HG38" →
      refGenomeCase r = none ∧ nullStr (refGenomeCase r) = "") := by
  refine ⟨rfl, rfl, fun h1 h2 => ?_⟩
  simp [refGenomeCase, nullStr, h1, h2]

/-- Witness for C8 at the NULL input. -/
theorem C8_witness : refGenomeCase none = none ∧ nullStr (refGenomeCase none) = "" :=
  (C8_reference_genome none).2.2 (by decide) (by decide)

/-- C9: the numeric parse of the tumor-cell-count column is best-effort: the
well-formed decimal string "45.5" yields 45.5, a NULL column yields 0, any
string the decimal parse rejects yields 0, and the fetch completes without
error on such a row. -/
theorem C9_tumor_cell_count (s : String) :
    tumorCellCountOf (some "45.5") = 91 / 2 ∧
    tumorCellCountOf none = 0 ∧
    (parseDecimal s = none → tumorCellCountOf (some s) = 0) ∧
    fetchMetadata (.ok [{ sampleRaw with tumorzellgehalt := some "n/a" }]) (.ok []) =
      .ok (fetchFold (.ok []) [{ sampleRaw with tumorzellgehalt := some "n/a" }]) := by
  refine ⟨?_, rfl, fun h => ?_, rfl⟩
  · have h0 : tumorCellCountOf (some "45.5") =
        ((45 : ℕ) : ℚ) + ((5 : ℕ) : ℚ) / (10 : ℚ) ^ (1 : ℕ) := rfl
    rw [h0]; norm_num
  · simp [tumorCellCountOf, nullStr, h]

/-- Witness for C9 at the concrete non-numeric input "n/a". -/
theorem C9_witness : tumorCellCountOf (some "n/a") = 0 :=
  (C9_tumor_cell_count "n/a").2.2.1 rfl

/-- C7 counterexample: with exactly one candidate case number the code does
not use it — the selected case identifier stays empty, so the single
candidate "F2024-0001" is not adopted as claimed. -/
theorem C7_counterexample :
    selectFallnummer (.ok ["F2024-0001"]) = "" ∧
    ("" : String) ≠ "F2024-0001" := ⟨rfl, by decide⟩

/-- C7 (amended): the selected case identifier is always left unset (empty
string): with zero entries or exactly one entry nothing is assigned — the
single candidate is not used directly — and even with more entries the
constructed select is never run, so no choice is ever adopted; the
disambiguation prompt is constructed only when the lookup succeeds with
more than one candidate. -/
theorem C7_case_selection (q : Except DbError (List String)) (x : String)
    (l : List String) :
    selectFallnummer (.ok []) = "" ∧
    selectFallnummer (.ok [x]) = "" ∧
    selectFallnummer q = "" ∧
    fallnummerPromptBuilt (.error "boom") = false ∧
    fallnummerPromptBuilt (.ok []) = false ∧
    fallnummerPromptBuilt (.ok [x]) = false ∧
    (2 ≤ l.length → fallnummerPromptBuilt (.ok l) = true) := by
  refine ⟨rfl, rfl, ?_, rfl, rfl, rfl, fun h => ?_⟩
  · cases q with
    | error e => rfl
    | ok l2 => simp [selectFallnummer]
  · simp only [fallnummerPromptBuilt, decide_eq_true_eq]
    omega

/-- Witness for C7 at a concrete two-candidate list: the prompt is built,
yet the selected case identifier still stays empty. -/
theorem C7_witness :
    selectFallnummer (.ok ["F1", "F2"]) = "" ∧
    fallnummerPromptBuilt (.ok ["F1", "F2"]) = true := by
  obtain ⟨-, -, h3, -, -, -, h7⟩ :=
    C7_case_selection (.ok ["F1", "F2"]) "F1" ["F1", "F2"]
  exact ⟨h3, h7 (by decide)⟩

/-- C5: when the (organization identifier, profile name) lookup finds no
profile — in particular when no profile was selected — assembly returns the
draft with exactly the local case identifier, clinical-data-node identifier
and genomic-data-center identifier set and everything else (all other
submission fields and all donors/LabData) unchanged, and this is not an
error. -/
theorem C5_no_profile_passthrough (data : Metadata) (fall kdk grz ik pname : String)
    (catalog : List Klinik) (h : findProfile catalog ik pname = none) :
    assemble data fall kdk grz catalog ik pname =
      some { data with submission :=
        { data.submission with
          localCaseId := fall,
          clinicalDataNodeId := kdk,
          genomicDataCenterId := grz } } := by
  simp [assemble, h]

/-- Witness for C5: the one-row fetched draft passes through unchanged when
profile "" (no profile) is selected for the cataloged organization. -/
theorem C5_witness :
    assemble sampleMeta "F2024-0001" "KDKTUE005" "GRZTUE002" sampleCatalog
      "260950567" "" =
      some { sampleMeta with submission :=
        { sampleMeta.submission with
          localCaseId := "F2024-0001",
          clinicalDataNodeId := "KDKTUE005",
          genomicDataCenterId := "GRZTUE002" } } :=
  C5_no_profile_passthrough sampleMeta "F2024-0001" "KDKTUE005" "GRZTUE002"
    "260950567" "" sampleCatalog rfl

/-- C2: a zero-row fetch succeeds with an empty donor list, but the
assembly step does not treat that empty result as valid when a profile is
selected and found: the overlay dereferences the first donor and aborts
(Go: index out of range on Donors[0], modelled as none), while assembly
without a matching profile completes. -/
theorem C2_zero_rows_assembly :
    fetchMetadata (.ok []) (.ok []) = .ok emptyMetadata ∧
    emptyMetadata.donors = [] ∧
    findProfile sampleCatalog "260950567" "UKW Standard" = some ukwProfile ∧
    assemble emptyMetadata "F2024-0001" "KDKTUE005" "GRZTUE002" sampleCatalog
      "260950567" "UKW Standard" = none ∧
    assemble emptyMetadata "F2024-0001" "KDKTUE005" "GRZTUE002" sampleCatalog
      "260950567" "" =
      some { emptyMetadata with submission :=
        { emptyMetadata.submission with
          localCaseId := "F2024-0001",
          clinicalDataNodeId := "KDKTUE005",
          genomicDataCenterId := "GRZTUE002" } } :=
  ⟨rfl, rfl, rfl, rfl, rfl⟩

/-- C1: on any draft whose first donor carries a first LabDatum with a
tumor-cell-count entry and a present SequenceData block (as every draft
fetched from at least one row does), applying a profile overwrites exactly
the documented submission fields (study type/subtype, lab name) and the
documented first-LabDatum fields, appends exactly one caller name/version
pair, and leaves every other donor, every other LabDatum, and every
non-listed field unchanged. -/
theorem C1_profile_overlay_frame (data : Metadata) (p : Profile)
    (d0 : Donor) (drest : List Donor) (l0 : LabDatum) (lrest : List LabDatum)
    (t0 : TumorCellCount) (trest : List TumorCellCount) (sd : SequenceData)
    (hd : data.donors = d0 :: drest) (hl : d0.labData = l0 :: lrest)
    (ht : l0.tumorCellCount = t0 :: trest) (hs : l0.sequenceData = some sd) :
    ∃ m : Metadata, applyProfile data p = some m ∧
      m.submission.genomicStudyType = p.genomicStudyType ∧
      m.submission.genomicStudySubtype = p.genomicStudySubtype ∧
      m.submission.labName = p.labName ∧
      m.submission.submissionType = data.submission.submissionType ∧
      m.submission.localCaseId = data.submission.localCaseId ∧
      m.submission.coverageType = data.submission.coverageType ∧
      m.submission.diseaseType = data.submission.diseaseType ∧
      m.submission.genomicDataCenterId = data.submission.genomicDataCenterId ∧
      m.submission.clinicalDataNodeId = data.submission.clinicalDataNodeId ∧
      ∃ d0' : Donor, m.donors = d0' :: drest ∧
        d0'.donorPseudonym = d0.donorPseudonym ∧
        d0'.gender = d0.gender ∧
        d0'.relation = d0.relation ∧
        d0'.mvConsent = d0.mvConsent ∧
        ∃ l0' : LabDatum, d0'.labData = l0' :: lrest ∧
          l0'.labDataName = p.labDataName ∧
          l0'.tissueTypeName = p.tissueTypeName ∧
          l0'.sequenceType = p.sequenceType ∧
          l0'.sequenceSubtype = p.sequenceSubType ∧
          l0'.fragmentationMethod = p.fragmentationMethod ∧
          l0'.libraryType = p.libraryType ∧
          l0'.libraryPrepKit = p.libraryPrepKit ∧
          l0'.libraryPrepKitManufacturer = p.libraryPrepKitManufacturer ∧
          l0'.sequencerModel = p.sequencerModel ∧
          l0'.sequencerManufacturer = p.sequencerManufacturer ∧
          l0'.kitName = p.kitName ∧
          l0'.kitManufacturer = p.kitManufacturer ∧
          l0'.enrichmentKitManufacturer = p.enrichmentKitManufacturer ∧
          l0'.enrichmentKitDescription = p.enrichmentKitDescription ∧
          l0'.sequencingLayout = p.sequencingLayout ∧
          l0'.barcode = l0.barcode ∧
          l0'.sampleDate = l0.sampleDate ∧
          l0'.sampleConservation = l0.sampleConservation ∧
          l0'.tumorCellCount = { t0 with method := p.tumorCellCountMethod } :: trest ∧
          ∃ sd' : SequenceData, l0'.sequenceData = some sd' ∧
            sd'.bioinformaticsPipelineName = p.bioinformaticsPipelineName ∧
            sd'.bioinformaticsPipelineVersion = p.bioinformaticsPipelineVersion ∧
            sd'.referenceGenome = sd.referenceGenome ∧
            sd'.files = sd.files ∧
            sd'.callerUsed = sd.callerUsed ++
              [ { name := p.callerUsedName, version := p.callerUsedVersion } ] := by
  simp only [applyProfile, hd, hl, ht, hs]
  exact ⟨_, rfl, rfl, rfl, rfl, rfl, rfl, rfl, rfl, rfl, rfl,
    ⟨_, rfl, rfl, rfl, rfl, rfl,
      ⟨_, rfl, rfl, rfl, rfl, rfl, rfl, rfl, rfl, rfl, rfl, rfl, rfl, rfl,
        rfl, rfl, rfl, rfl, rfl, rfl, rfl,
        ⟨_, rfl, rfl, rfl, rfl, rfl, rfl⟩⟩⟩⟩

/-- Witness for C1: the overlay applies on the one-row fetched draft. -/
theorem C1_witness : (applyProfile sampleMeta ukwProfile).isSome = true := by
  obtain ⟨m, hm, -⟩ := C1_profile_overlay_frame sampleMeta ukwProfile sampleDonor []
    (mkLabDatum sampleRaw) [] sampleT0 [] sampleSd rfl rfl rfl rfl
  rw [hm]; rfl

/-- C3 counterexample: a database error in the Consent Resolver's query does
not propagate and is not fatal — the resolver returns absent with a nil
error, the fetch still succeeds, and the single donor is simply left without
a consent record. -/
theorem C3_counterexample :
    fetchMvConsent (.error "connection lost") = (none, none) ∧
    fetchMetadata (.ok [sampleRaw]) (.error "connection lost") =
      .ok (fetchFold (.error "connection lost") [sampleRaw]) ∧
    (fetchFold (.error "connection lost") [sampleRaw]).donors.map Donor.mvConsent =
      [none] :=
  ⟨rfl, rfl, rfl⟩

/-- C3 (amended): no error raised by the Consent Resolver's query ever
propagates: the resolver's error result is always nil, a query error is
absorbed exactly like missing data (consent reported absent), the top-level
fetch still succeeds, and every constructed donor is left with its consent
field unset. -/
theorem C3_consent_errors_absorbed (e : DbError) (rows : List RawRow)
    (q : Except DbError (List ConsentRow)) :
    fetchMvConsent (.error e) = (none, none) ∧
    (fetchMvConsent q).2 = none ∧
    fetchMetadata (.ok rows) (.error e) = .ok (fetchFold (.error e) rows) ∧
    ((fetchFold (.error e) rows).donors.all fun d => d.mvConsent.isNone) = true := by
  refine ⟨rfl, ?_, rfl, ?_⟩
  · cases q with
    | error e2 => rfl
    | ok crows =>
      cases hq : (List.insertionSort consentGE crows).take 1 with
      | nil => simp [fetchMvConsent, hq]
      | cons r rest => simp [fetchMvConsent, hq]
  · rw [List.all_eq_true]
    intro d hd
    simp only [fetchFold] at hd
    have hP := fold_donors_pres (.error e) (fun d => d.mvConsent = none)
      (fun _ => rfl) (fun _ _ h => h) rows emptyMetadata
      (fun d hd2 => absurd hd2 (List.not_mem_nil d)) d hd
    simp [hP]

/-- C6: consent resolution returns at most one record: when consent-history
rows exist it returns a most-recently-dated row mapped into the three scopes
(sequencing-use, re-identification, case-identification), each stamped with
that row's date, with a nil error; when no rows exist it returns absent
without an error and the donor built by the fetch is left with its consent
field unset. -/
theorem C6_consent_resolution (rows : List ConsentRow) (rawRows : List RawRow) :
    (rows ≠ [] → ∃ r, r ∈ rows ∧ (∀ q ∈ rows, q.date ≤ r.date) ∧
      fetchMvConsent (.ok rows) = (some (mkMvConsent r), none) ∧
      (mkMvConsent r).scope.map Scope.date = [r.date, r.date, r.date] ∧
      (mkMvConsent r).scope.map Scope.domain =
        ["mvSequencing", "reIdentification", "caseIdentification"]) ∧
    fetchMvConsent (.ok ([] : List ConsentRow)) = (none, none) ∧
    ((fetchFold (.ok ([] : List ConsentRow)) rawRows).donors.all
      fun d => d.mvConsent.isNone) = true := by
  refine ⟨fun hne => ?_, rfl, ?_⟩
  · have hperm := List.perm_insertionSort consentGE rows
    have hsorted := List.sorted_insertionSort consentGE rows
    cases hs : List.insertionSort consentGE rows with
    | nil =>
      rw [hs] at hperm
      exact absurd hperm.symm.eq_nil hne
    | cons s0 srest =>
      rw [hs] at hperm hsorted
      refine ⟨s0, hperm.subset (List.mem_cons_self s0 srest), ?_, ?_, rfl, rfl⟩
      · intro q hq
        have hq2 : q ∈ s0 :: srest := hperm.symm.subset hq
        rcases List.mem_cons.mp hq2 with h | h
        · subst h; exact le_refl _
        · exact List.rel_of_sorted_cons hsorted q h
      · simp [fetchMvConsent, hs]
  · rw [List.all_eq_true]
    intro d hd
    simp only [fetchFold] at hd
    have hP := fold_donors_pres (.ok ([] : List ConsentRow)) (fun d => d.mvConsent = none)
      (fun _ => rfl) (fun _ _ h => h) rawRows emptyMetadata
      (fun d hd2 => absurd hd2 (List.not_mem_nil d)) d hd
    simp [hP]

/-- Witness for C6 on a concrete two-row consent history. -/
theorem C6_witness : (fetchMvConsent (.ok [crowNew, crowOld])).1.isSome = true := by
  obtain ⟨h1, -, -⟩ := C6_consent_resolution [crowNew, crowOld] []
  obtain ⟨r, -, -, heq, -⟩ := h1 (by simp)
  rw [heq]
  rfl

/-- C10: every LabDatum constructed by the fetch has barcode "NA", exactly
one tumor-cell-count entry whose method is the fixed "pathology", and a
present SequenceData block with an empty file list — the invariant the
profile overlay relies on when it writes the first tumor-cell-count method
and dereferences SequenceData on the first LabDatum. -/
theorem C10_labdatum_invariant (q : Except DbError (List ConsentRow))
    (rows : List RawRow) (d : Donor) (hd : d ∈ (fetchFold q rows).donors)
    (ld : LabDatum) (hld : ld ∈ d.labData) :
    ld.barcode = "NA" ∧ ld.tumorCellCount.length = 1 ∧
    (∀ t ∈ ld.tumorCellCount, t.method = "pathology") ∧
    ∃ sd, ld.sequenceData = some sd ∧ sd.files = [] := by
  simp only [fetchFold] at hd
  have hP := fold_donors_pres q
    (fun d => ∀ ld2 ∈ d.labData, ld2.barcode = "NA" ∧ ld2.tumorCellCount.length = 1 ∧
      (∀ t ∈ ld2.tumorCellCount, t.method = "pathology") ∧
      ∃ sd, ld2.sequenceData = some sd ∧ sd.files = [])
    (fun r => by intro ld2 hld2; exact absurd hld2 (List.not_mem_nil ld2))
    (fun d r h => by
      intro ld2 hld2
      rcases List.mem_append.mp hld2 with h2 | h2
      · exact h ld2 h2
      · rcases List.mem_singleton.mp h2 with h3
        subst h3
        refine ⟨rfl, rfl, ?_, ⟨_, rfl, rfl⟩⟩
        intro t ht
        rcases List.mem_singleton.mp ht with h4
        subst h4
        rfl)
    rows emptyMetadata (fun d hd2 => absurd hd2 (List.not_mem_nil d)) d hd
  exact hP ld hld

/-- Witness for C10 on the concrete one-row fetch. -/
theorem C10_witness :
    (mkLabDatum sampleRaw).barcode = "NA" ∧
    (mkLabDatum sampleRaw).tumorCellCount.length = 1 ∧
    (mkLabDatum sampleRaw).tumorCellCount.map TumorCellCount.method = ["pathology"] ∧
    (mkLabDatum sampleRaw).sequenceData = some sampleSd ∧ sampleSd.files = [] := by
  obtain ⟨h1, h2, -, -⟩ := C10_labdatum_invariant (.ok []) [sampleRaw] sampleDonor
    (List.mem_singleton.mpr rfl) (mkLabDatum sampleRaw) (List.mem_singleton.mpr rfl)
  exact ⟨h1, h2, rfl, rfl, rfl⟩
